import Mathlib

/-!
Shallow embedding of `flight_search_server.py` (Flight-Search-MCP-Server).

The server is a line-oriented JSON-RPC dispatcher over stdio.  We model
JSON values as an inductive type, Python dictionary/subscript/truthiness
semantics as explicit functions (exceptions become `Except String`), the
HTTP round trip of the flight lookup as an abstract `HttpOutcome`
parameter, and the per-line behaviour of `run_stdio` as a function from
the parsed input line to a step result (response, silence, or crash).
Numeric JSON payloads are modelled as integers; the protocol layer only
ever inspects the integer error codes.
-/

namespace FlightSearch

/-- JSON values as produced by `json.loads` (Python `None`, `bool`, `int`,
`str`, `list`, `dict`). -/
inductive Json where
  | null : Json
  | bool : Bool → Json
  | num : Int → Json
  | str : String → Json
  | arr : List Json → Json
  | obj : List (String × Json) → Json

/-- Look a key up in a JSON object; `json.loads` keeps the LAST binding of
a duplicated key, hence the `reverse`.  `none` on non-objects. -/
def Json.objLookup : Json → String → Option Json
  | .obj fields, k => (fields.reverse).lookup k
  | _, _ => none

/-- Python `x is None` for a loaded JSON value. -/
def Json.isNull : Json → Bool
  | .null => true
  | _ => false

/-- Python `==` between a loaded JSON value and a string literal: only a
string compares equal to a string. -/
def Json.eqStr : Json → String → Bool
  | .str t, s => t == s
  | _, _ => false

/-- Python type name of a loaded JSON value (used in exception texts). -/
def pyTypeName : Json → String
  | .null => "NoneType"
  | .bool _ => "bool"
  | .num _ => "int"
  | .str _ => "str"
  | .arr _ => "list"
  | .obj _ => "dict"

/-- Python truthiness of a loaded JSON value (`if return_date:`). -/
def pyTruthy : Json → Bool
  | .null => false
  | .bool b => b
  | .num n => n != 0
  | .str s => s != ""
  | .arr xs => !xs.isEmpty
  | .obj fs => !fs.isEmpty

/-- Python `d.get(k, default)`: raises `AttributeError` on non-dicts. -/
def pyGet (j : Json) (k : String) (d : Json) : Except String Json :=
  match j with
  | .obj fields => .ok (((fields.reverse).lookup k).getD d)
  | _ => .error ("\x27" ++ pyTypeName j ++ "\x27 object has no attribute \x27get\x27")

/-- Python `x[k]` for a string key `k`: `KeyError` (whose `str` is the
repr of the key) on dicts missing the key, `TypeError` on non-dicts. -/
def pySubscriptKey (j : Json) (k : String) : Except String Json :=
  match j with
  | .obj fields =>
      match (fields.reverse).lookup k with
      | some v => .ok v
      | none => .error ("\x27" ++ k ++ "\x27")
  | .arr _ => .error "list indices must be integers or slices, not str"
  | .str _ => .error "string indices must be integers"
  | _ => .error ("\x27" ++ pyTypeName j ++ "\x27 object is not subscriptable")

/-- Python `x[0]`: `IndexError` on empty sequences, `TypeError` on
non-sequences.  (A one-character string result is modelled as a string.) -/
def pySubscriptZero (j : Json) : Except String Json :=
  match j with
  | .arr [] => .error "list index out of range"
  | .arr (x :: _) => .ok x
  | .str s =>
      match s.toList with
      | [] => .error "string index out of range"
      | c :: _ => .ok (.str (String.singleton c))
  | _ => .error ("\x27" ++ pyTypeName j ++ "\x27 object is not subscriptable")

/-- Python `len(x)`: `TypeError` on non-sized values. -/
def pyLen (j : Json) : Except String Nat :=
  match j with
  | .arr xs => .ok xs.length
  | .str s => .ok s.length
  | .obj fs => .ok fs.length
  | _ => .error ("object of type \x27" ++ pyTypeName j ++ "\x27 has no len")

/-- Boolean infix test on lists (substring search helper). -/
def containsRun (needle : List Char) : List Char → Bool
  | [] => needle.isEmpty
  | x :: xs => needle.isPrefixOf (x :: xs) || containsRun needle xs

/-- Python `s in x` for a string `s`: key membership for dicts, element
membership for lists, substring for strings, `TypeError` otherwise. -/
def pyContainsStr (j : Json) (s : String) : Except String Bool :=
  match j with
  | .obj fields => .ok (fields.any (fun kv => kv.1 == s))
  | .arr xs => .ok (xs.any (fun x => x.eqStr s))
  | .str t => .ok (containsRun s.toList t.toList)
  | _ => .error ("argument of type \x27" ++ pyTypeName j ++ "\x27 is not iterable")

mutual

/-- Python `repr` of a loaded JSON value. -/
def pyRepr : Json → String
  | .null => "None"
  | .bool true => "True"
  | .bool false => "False"
  | .num n => toString n
  | .str s => "\x27" ++ s ++ "\x27"
  | .arr xs => "[" ++ pyReprList xs ++ "]"
  | .obj fs => "\x7b" ++ pyReprFields fs ++ "\x7d"

/-- Repr text of the elements of a list, comma separated. -/
def pyReprList : List Json → String
  | [] => ""
  | [x] => pyRepr x
  | x :: y :: xs => pyRepr x ++ ", " ++ pyReprList (y :: xs)

/-- Repr text of dict items, comma separated. -/
def pyReprFields : List (String × Json) → String
  | [] => ""
  | [(k, v)] => "\x27" ++ k ++ "\x27: " ++ pyRepr v
  | (k, v) :: f :: fs => "\x27" ++ k ++ "\x27: " ++ pyRepr v ++ ", " ++ pyReprFields (f :: fs)

end

/-- Python `str()` of a loaded JSON value (as used by f-string
interpolation): identity on strings, `repr`-like otherwise. -/
def pyStr : Json → String
  | .str s => s
  | j => pyRepr j

/-- JSON string escaping as done by `json.dumps` (quote, backslash and
newline; other characters in our payloads need no escaping). -/
def jsonEscapeChar (c : Char) : String :=
  if c = Char.ofNat 34 then String.singleton (Char.ofNat 92) ++ String.singleton (Char.ofNat 34)
  else if c = Char.ofNat 92 then String.singleton (Char.ofNat 92) ++ String.singleton (Char.ofNat 92)
  else if c = Char.ofNat 10 then String.singleton (Char.ofNat 92) ++ "n"
  else String.singleton c

/-- Escape a whole string for `json.dumps`. -/
def jsonEscape (s : String) : String :=
  String.join (s.toList.map jsonEscapeChar)

/-- A run of spaces, for the indented dump layout. -/
def indentSpaces : Nat → String
  | 0 => ""
  | n + 1 => " " ++ indentSpaces n

mutual

/-- Dump of a value as json.dumps with indent 2 at nesting depth `ind`. -/
def dumpsVal (ind : Nat) : Json → String
  | .null => "null"
  | .bool true => "true"
  | .bool false => "false"
  | .num n => toString n
  | .str s => String.singleton (Char.ofNat 34) ++ jsonEscape s ++ String.singleton (Char.ofNat 34)
  | .arr xs =>
      if xs.isEmpty then "[]"
      else "[\n" ++ dumpsItems (ind + 2) xs ++ "\n" ++ indentSpaces ind ++ "]"
  | .obj fs =>
      if fs.isEmpty then "\x7b\x7d"
      else "\x7b\n" ++ dumpsPairs (ind + 2) fs ++ "\n" ++ indentSpaces ind ++ "\x7d"

/-- Indented, comma-and-newline separated array items. -/
def dumpsItems (ind : Nat) : List Json → String
  | [] => ""
  | [x] => indentSpaces ind ++ dumpsVal ind x
  | x :: y :: ys => indentSpaces ind ++ dumpsVal ind x ++ ",\n" ++ dumpsItems ind (y :: ys)

/-- Indented, comma-and-newline separated object pairs. -/
def dumpsPairs (ind : Nat) : List (String × Json) → String
  | [] => ""
  | [(k, v)] =>
      indentSpaces ind ++ String.singleton (Char.ofNat 34) ++ jsonEscape k ++
        String.singleton (Char.ofNat 34) ++ ": " ++ dumpsVal ind v
  | (k, v) :: f :: fs =>
      indentSpaces ind ++ String.singleton (Char.ofNat 34) ++ jsonEscape k ++
        String.singleton (Char.ofNat 34) ++ ": " ++ dumpsVal ind v ++ ",\n" ++
        dumpsPairs ind (f :: fs)

end

/-- Dump as json.dumps with indent 2, as used in `handle_call_tool`. -/
def jsonDumps (j : Json) : String := dumpsVal 0 j

/-- Outcome of the HTTP round trip inside `search_flights`
(`requests.get` + `raise_for_status` + `response.json()`), abstracting
the network:
* `requestException e`: a `requests.RequestException` was raised
  (network failure or non-2xx status);
* `ok data`: the body parsed to the JSON value `data`;
* `otherException e`: some other exception was raised while obtaining
  the body (for example a body that is not valid JSON). -/
inductive HttpOutcome where
  | requestException : String → HttpOutcome
  | ok : Json → HttpOutcome
  | otherException : String → HttpOutcome

/-- The query parameters built in `search_flights` (source lines 28-42):
the base dictionary plus, depending on the TRUTHINESS of `return_date`,
either `return_date` + `type="1"` (round trip) or `type="2"` (one way). -/
def searchQueryParams (serp_api_key : String)
    (origin destination outbound_date return_date : Json) : List (String × Json) :=
  let base : List (String × Json) :=
    [("engine", .str "google_flights"),
     ("departure_id", origin),
     ("arrival_id", destination),
     ("outbound_date", outbound_date),
     ("currency", .str "USD"),
     ("api_key", .str serp_api_key)]
  if pyTruthy return_date then
    base ++ [("return_date", return_date), ("type", .str "1")]
  else
    base ++ [("type", .str "2")]

/-- One entry of the `flights` list (source lines 61-68), with the
Python exceptions of each lookup made explicit. -/
def flightInfo (flight : Json) : Except String Json := do
  let price ← pyGet flight "price" (.str "N/A")
  let legs1 ← pyGet flight "flights" (.arr [.obj []])
  let leg1 ← pySubscriptZero legs1
  let depAirport ← pyGet leg1 "departure_airport" (.obj [])
  let depTime ← pyGet depAirport "time" .null
  let legs2 ← pyGet flight "flights" (.arr [.obj []])
  let leg2 ← pySubscriptZero legs2
  let arrAirport ← pyGet leg2 "arrival_airport" (.obj [])
  let arrTime ← pyGet arrAirport "time" .null
  let legs3 ← pyGet flight "flights" (.arr [.obj []])
  let leg3 ← pySubscriptZero legs3
  let airline ← pyGet leg3 "airline" .null
  let duration ← pyGet flight "total_duration" .null
  let legs4 ← pyGet flight "flights" (.arr [])
  let n ← pyLen legs4
  pure (.obj
    [("price", price),
     ("departure_time", depTime),
     ("arrival_time", arrTime),
     ("airline", airline),
     ("duration", duration),
     ("stops", .num ((n : Int) - 1))])

/-- The `for flight in best_flights[:5]` loop: slicing works on lists
and strings, `TypeError` otherwise; iterating a nonempty string feeds
one-character strings (no `.get`) into `flightInfo`. -/
def extractFlights (best_flights : Json) : Except String (List Json) :=
  match best_flights with
  | .arr xs => (xs.take 5).mapM flightInfo
  | .str s =>
      match s.toList with
      | [] => .ok []
      | c :: _ => (flightInfo (.str (String.singleton c))).map (fun x => [x])
  | _ => .error ("unhashable type: \x27slice\x27 on " ++ pyTypeName best_flights)

/-- The body of the `try` block of `search_flights` after
`response.json()` succeeded (source lines 49-79): provider-error check,
flight extraction, and the success payload with its truthiness-derived
`trip_type`. -/
def processFlightData (origin destination outbound_date return_date : Json)
    (data : Json) : Except String Json := do
  let hasErr ← pyContainsStr data "error"
  if hasErr then
    let errVal ← pySubscriptKey data "error"
    pure (.obj
      [("status", .str "error"),
       ("message", .str ("SerpAPI error: " ++ pyStr errVal))])
  else
    let best_flights ← pyGet data "best_flights" (.arr [])
    let flights ← extractFlights best_flights
    pure (.obj
      [("status", .str "success"),
       ("origin", origin),
       ("destination", destination),
       ("outbound_date", outbound_date),
       ("return_date", return_date),
       ("trip_type", .str (if pyTruthy return_date then "round_trip" else "one_way")),
       ("flights", .arr flights)])

/-- Model of `FlightSearchServer.search_flights` (source lines 25-90): builds the
query, performs the HTTP round trip (abstracted by `outcome`), and folds
every failure into a `status: "error"` dictionary; never raises. -/
def search_flights (serp_api_key : String)
    (origin destination outbound_date return_date : Json)
    (outcome : HttpOutcome) : Json :=
  let _params := searchQueryParams serp_api_key origin destination outbound_date return_date
  match outcome with
  | .requestException e =>
      .obj [("status", .str "error"), ("message", .str ("API request failed: " ++ e))]
  | .otherException e =>
      .obj [("status", .str "error"), ("message", .str ("Error processing flight data: " ++ e))]
  | .ok data =>
      match processFlightData origin destination outbound_date return_date data with
      | .ok payload => payload
      | .error e =>
          .obj [("status", .str "error"), ("message", .str ("Error processing flight data: " ++ e))]

/-- The `request_id` computation shared by all four handlers
(`request.get("id")`, then substitute the string `"unknown"` for `None`,
source lines 94-96 etc.); defined on objects (the dispatcher only calls
handlers after `request.get("method")` succeeded). -/
def handlerRequestId (fields : List (String × Json)) : Json :=
  let rid := ((fields.reverse).lookup "id").getD .null
  if rid.isNull then .str "unknown" else rid

/-- Build the `-32603` internal-error response of `handle_call_tool`
(source lines 149-156). -/
def mkInternalError (request_id : Json) (msg : String) : Json :=
  .obj
    [("jsonrpc", .str "2.0"),
     ("id", request_id),
     ("error", .obj
       [("code", .num (-32603)),
        ("message", .str ("Internal error: " ++ msg))])]

/-- Wrap a string as the single text content block of a tool-call
success result (source lines 113-121 and 127-135). -/
def mkTextResult (request_id : Json) (text : String) : Json :=
  .obj
    [("jsonrpc", .str "2.0"),
     ("id", request_id),
     ("result", .obj
       [("content", .arr
         [.obj [("type", .str "text"), ("text", .str text)]])])]

/-- The `-32601` unknown-tool error response of `handle_call_tool`
(source lines 138-145). -/
def mkUnknownTool (request_id tool_name : Json) : Json :=
  .obj
    [("jsonrpc", .str "2.0"),
     ("id", request_id),
     ("error", .obj
       [("code", .num (-32601)),
        ("message", .str ("Unknown tool: " ++ pyStr tool_name))])]

/-- The `try` block of `handle_call_tool` (source lines 98-145):
extract `params.name` and `params.arguments`, branch on the tool name,
and produce a full JSON-RPC response.  An `.error` is an escaped Python
exception, converted to `-32603` by the caller. -/
def callToolTry (serp_api_key : String) (request_id request : Json)
    (outcome : HttpOutcome) : Except String Json := do
  let params ← pySubscriptKey request "params"
  let tool_name ← pySubscriptKey params "name"
  let params2 ← pySubscriptKey request "params"
  let arguments ← pyGet params2 "arguments" (.obj [])
  if tool_name.eqStr "search_flights" then
    let origin ← pyGet arguments "origin" (.str "")
    let destination ← pyGet arguments "destination" (.str "")
    let outbound_date ← pyGet arguments "outbound_date" (.str "")
    let return_date ← pyGet arguments "return_date" .null
    let result := search_flights serp_api_key origin destination outbound_date return_date outcome
    pure (mkTextResult request_id (jsonDumps result))
  else if tool_name.eqStr "server_status" then
    pure (mkTextResult request_id "Flight search server is running")
  else
    pure (mkUnknownTool request_id tool_name)

/-- Model of `FlightSearchServer.handle_call_tool` (source lines 92-156): the
`request_id` substitution, then the guarded tool dispatch whose escaped
exceptions become a `-32603` response.  The outer `Except` is an
exception escaping the handler itself, possible only when `request` is
not a dict (the `request.get("id")` line). -/
def handle_call_tool (serp_api_key : String) (request : Json)
    (outcome : HttpOutcome) : Except String Json := do
  let rid ← pyGet request "id" .null
  let request_id := if rid.isNull then Json.str "unknown" else rid
  match callToolTry serp_api_key request_id request outcome with
  | .ok resp => pure resp
  | .error e => pure (mkInternalError request_id e)

/-- The static tool catalog of `handle_list_tools` (source lines
164-199): the search tool first, the status tool second. -/
def toolsList : List Json :=
  [.obj
    [("name", .str "search_flights"),
     ("description", .str "Search for flights between airports"),
     ("inputSchema", .obj
       [("type", .str "object"),
        ("properties", .obj
          [("origin", .obj
            [("type", .str "string"),
             ("description", .str "Origin airport code (e.g., JFK, LAX)")]),
           ("destination", .obj
            [("type", .str "string"),
             ("description", .str "Destination airport code (e.g., JFK, LAX)")]),
           ("outbound_date", .obj
            [("type", .str "string"),
             ("description", .str "Departure date (YYYY-MM-DD)")]),
           ("return_date", .obj
            [("type", .str "string"),
             ("description", .str "Return date for round trip (YYYY-MM-DD)")])]),
        ("required", .arr [.str "origin", .str "destination", .str "outbound_date"])])],
   .obj
    [("name", .str "server_status"),
     ("description", .str "Check if the flight search server is running"),
     ("inputSchema", .obj
       [("type", .str "object"),
        ("properties", .obj [])])]]

/-- The `tools/list` success response (source lines 201-207). -/
def mkListToolsResult (request_id : Json) : Json :=
  .obj
    [("jsonrpc", .str "2.0"),
     ("id", request_id),
     ("result", .obj [("tools", .arr toolsList)])]

/-- Model of `FlightSearchServer.handle_list_tools` (source lines 158-207). -/
def handle_list_tools (request : Json) : Except String Json := do
  let rid ← pyGet request "id" .null
  pure (mkListToolsResult (if rid.isNull then Json.str "unknown" else rid))

/-- The `initialize` success response (source lines 215-228). -/
def mkInitResult (request_id : Json) : Json :=
  .obj
    [("jsonrpc", .str "2.0"),
     ("id", request_id),
     ("result", .obj
       [("protocolVersion", .str "2024-11-05"),
        ("capabilities", .obj [("tools", .obj [])]),
        ("serverInfo", .obj
          [("name", .str "flight-search-server"),
           ("version", .str "1.0.2")])])]

/-- Model of `FlightSearchServer.handle_initialize` (source lines 209-228). -/
def handle_init (request : Json) : Except String Json := do
  let rid ← pyGet request "id" .null
  pure (mkInitResult (if rid.isNull then Json.str "unknown" else rid))

/-- The `ping` success response (source lines 236-240). -/
def mkPingResult (request_id : Json) : Json :=
  .obj
    [("jsonrpc", .str "2.0"),
     ("id", request_id),
     ("result", .obj [])]

/-- Model of `FlightSearchServer.handle_ping` (source lines 230-240). -/
def handle_ping (request : Json) : Except String Json := do
  let rid ← pyGet request "id" .null
  pure (mkPingResult (if rid.isNull then Json.str "unknown" else rid))

/-- What `run_stdio` does with one input line:
* `response r`: exactly one response `r` is written and the loop
  continues;
* `noResponse`: nothing is written and the loop continues;
* `crash`: an exception escapes `run_stdio` (an exception raised again
  inside the loop-level `except` handler), terminating the process. -/
inductive StepResult where
  | response : Json → StepResult
  | noResponse : StepResult
  | crash : StepResult

/-- One line of input as seen after `readline`/`strip`/`json.loads`:
blank (skipped before parsing), malformed (a `json.JSONDecodeError`
carrying message `msg`), or parsed to a JSON value together with the
abstract HTTP outcome used if the line reaches the flight lookup. -/
inductive InputLine where
  | blank : InputLine
  | malformed : String → InputLine
  | parsed : Json → HttpOutcome → InputLine

/-- The `-32700` response of the `json.JSONDecodeError` handler
(source lines 302-312): `id` is the JSON null. -/
def mkParseError (msg : String) : Json :=
  .obj
    [("jsonrpc", .str "2.0"),
     ("id", .null),
     ("error", .obj
       [("code", .num (-32700)),
        ("message", .str ("Parse error: " ++ msg))])]

/-- The `-32601` method-not-found response of the dispatch fall-through
(source lines 288-295). -/
def mkMethodNotFound (request_id method : Json) : Json :=
  .obj
    [("jsonrpc", .str "2.0"),
     ("id", request_id),
     ("error", .obj
       [("code", .num (-32601)),
        ("message", .str ("Method not found: " ++ pyStr method))])]

/-- The loop-level `except Exception` handler (source lines 313-323):
recover `request.get("id")` (no `"unknown"` substitution here) and emit
a `-32603` response; if that recovery itself raises (non-dict
`request`) the exception escapes `run_stdio`. -/
def loopExceptHandler (request : Json) (msg : String) : StepResult :=
  match pyGet request "id" .null with
  | .ok rid => .response (mkInternalError rid msg)
  | .error _ => .crash

/-- Run a handler under the loop-level `except` (the handlers can only
raise before their own `try`, namely on a non-dict `request`). -/
def wrapHandler (request : Json) (res : Except String Json) : StepResult :=
  match res with
  | .ok r => .response r
  | .error e => loopExceptHandler request e

/-- The per-line behaviour of `FlightSearchServer.run_stdio` (source
lines 255-323): parse-error recovery, then the method dispatch of lines
269-295 with its `notifications/initialized` silence and its `-32601`
fall-through. -/
def processInputLine (serp_api_key : String) (line : InputLine) : StepResult :=
  match line with
  | .blank => .noResponse
  | .malformed msg => .response (mkParseError msg)
  | .parsed request outcome =>
      match pyGet request "method" .null with
      | .error e => loopExceptHandler request e
      | .ok method =>
          if method.eqStr "initialize" then
            wrapHandler request (handle_init request)
          else if method.eqStr "tools/list" then
            wrapHandler request (handle_list_tools request)
          else if method.eqStr "tools/call" then
            wrapHandler request (handle_call_tool serp_api_key request outcome)
          else if method.eqStr "ping" then
            wrapHandler request (handle_ping request)
          else if method.eqStr "notifications/initialized" then
            .noResponse
          else
            match pyGet request "id" (.str "unknown") with
            | .ok request_id => .response (mkMethodNotFound request_id method)
            | .error _ => .crash

/-- The whole `run_stdio` session over a finite input stream: the list
of responses written, in order; a crash ends the process (and EOF, the
end of the list, ends the loop cleanly). -/
def run_stdio (serp_api_key : String) : List InputLine → List Json
  | [] => []
  | l :: rest =>
      match processInputLine serp_api_key l with
      | .response r => r :: run_stdio serp_api_key rest
      | .noResponse => run_stdio serp_api_key rest
      | .crash => []

/-- Extract the response of a step result, if one was written. -/
def stepResponse : StepResult → Option Json
  | .response r => some r
  | _ => none

/-- The error code of a response, as an integer. -/
def errorCodeOf (r : Json) : Option Int :=
  match (r.objLookup "error").bind (fun e => e.objLookup "code") with
  | some (.num n) => some n
  | _ => none

/-- The `id` field of a response. -/
def idOf (r : Json) : Option Json := r.objLookup "id"

/-- Does a response carry field `k` at top level? -/
def hasKey (r : Json) (k : String) : Bool :=
  match r with
  | .obj fields => fields.any (fun kv => kv.1 == k)
  | _ => false

/-- The text of the single content block of a tool-call result. -/
def callTextOf (r : Json) : Option String :=
  match (r.objLookup "result").bind (fun x => x.objLookup "content") with
  | some (.arr [c]) =>
      match c.objLookup "text" with
      | some (.str t) => some t
      | _ => none
  | _ => none

/-- The names of the descriptors in a `tools/list` result. -/
def toolNamesOf (r : Json) : Option (List (Option Json)) :=
  match (r.objLookup "result").bind (fun x => x.objLookup "tools") with
  | some (.arr ts) => some (ts.map (fun t => t.objLookup "name"))
  | _ => none

/-- The `status` string of a collaborator payload. -/
def statusOf (p : Json) : Option String :=
  match p.objLookup "status" with
  | some (.str s) => some s
  | _ => none

/-- The `trip_type` string of a collaborator payload. -/
def tripTypeOf (p : Json) : Option String :=
  match p.objLookup "trip_type" with
  | some (.str s) => some s
  | _ => none

/-- The `method` value the dispatcher computes for a parsed object
envelope (`request.get("method")`, that is `null` when absent). -/
def envMethod (fields : List (String × Json)) : Json :=
  ((fields.reverse).lookup "method").getD .null

/-- The value `arguments.get(k, d)` yields on an argument dictionary
given as a field list. -/
def argOf (af : List (String × Json)) (k : String) (d : Json) : Json :=
  ((af.reverse).lookup k).getD d

/-- The collaborator lookup failed: a network-level
`requests.RequestException`, some other exception while obtaining the
body, or a provider rejection (a body containing `"error"`). -/
def lookupFails : HttpOutcome → Prop
  | .requestException _ => True
  | .otherException _ => True
  | .ok data => pyContainsStr data "error" = .ok true

/-! ### Reduction lemmas -/

@[simp] theorem exceptBindOk {α β : Type} (a : α) (f : α → Except String β) :
    (Except.ok a >>= f) = f a := rfl

@[simp] theorem exceptBindErr {α β : Type} (e : String) (f : α → Except String β) :
    ((Except.error e : Except String α) >>= f) = Except.error e := rfl

@[simp] theorem exceptPureEq {α : Type} (a : α) :
    (pure a : Except String α) = Except.ok a := rfl

theorem eqStr_iff (j : Json) (s : String) : j.eqStr s = true ↔ j = Json.str s := by
  cases j <;> simp [Json.eqStr]

/-- Dispatch shape of the loop on a parsed object envelope. -/
theorem processInputLine_obj (key : String) (fs : List (String × Json)) (o : HttpOutcome) :
    processInputLine key (.parsed (.obj fs) o) =
      (if (envMethod fs).eqStr "initialize" then
        wrapHandler (.obj fs) (handle_init (.obj fs))
      else if (envMethod fs).eqStr "tools/list" then
        wrapHandler (.obj fs) (handle_list_tools (.obj fs))
      else if (envMethod fs).eqStr "tools/call" then
        wrapHandler (.obj fs) (handle_call_tool key (.obj fs) o)
      else if (envMethod fs).eqStr "ping" then
        wrapHandler (.obj fs) (handle_ping (.obj fs))
      else if (envMethod fs).eqStr "notifications/initialized" then
        .noResponse
      else
        .response (mkMethodNotFound (((fs.reverse).lookup "id").getD (.str "unknown"))
          (envMethod fs))) := rfl

theorem handle_init_obj (fs : List (String × Json)) :
    handle_init (.obj fs) = .ok (mkInitResult (handlerRequestId fs)) := rfl

theorem handle_list_tools_obj (fs : List (String × Json)) :
    handle_list_tools (.obj fs) = .ok (mkListToolsResult (handlerRequestId fs)) := rfl

theorem handle_ping_obj (fs : List (String × Json)) :
    handle_ping (.obj fs) = .ok (mkPingResult (handlerRequestId fs)) := rfl

/-- The handler `handle_call_tool` on an object envelope never raises: its `try`
either succeeds or is converted to the `-32603` response. -/
theorem handle_call_tool_obj (key : String) (fs : List (String × Json)) (o : HttpOutcome) :
    handle_call_tool key (.obj fs) o =
      (match callToolTry key (handlerRequestId fs) (.obj fs) o with
       | .ok resp => .ok resp
       | .error e => .ok (mkInternalError (handlerRequestId fs) e)) := rfl

/-- Every response `callToolTry` can return, and on which branch. -/
theorem callToolTry_cases (key : String) (rid req : Json) (o : HttpOutcome) (r : Json)
    (h : callToolTry key rid req o = .ok r) :
    (∃ t, r = mkTextResult rid t) ∨ (∃ n, r = mkUnknownTool rid n) := by
  unfold callToolTry at h
  cases h1 : pySubscriptKey req "params" with
  | error e => rw [h1] at h; simp at h
  | ok params =>
    rw [h1] at h
    simp only [exceptBindOk] at h
    cases h2 : pySubscriptKey params "name" with
    | error e => rw [h2] at h; simp at h
    | ok tool_name =>
      rw [h2] at h
      simp only [exceptBindOk] at h
      cases h3 : pyGet params "arguments" (.obj []) with
      | error e => rw [h3] at h; simp at h
      | ok arguments =>
        rw [h3] at h
        simp only [exceptBindOk] at h
        by_cases h4 : tool_name.eqStr "search_flights" = true
        · rw [if_pos h4] at h
          cases h5 : pyGet arguments "origin" (.str "") with
          | error e => rw [h5] at h; simp at h
          | ok origin =>
            rw [h5] at h
            simp only [exceptBindOk] at h
            cases h6 : pyGet arguments "destination" (.str "") with
            | error e => rw [h6] at h; simp at h
            | ok destination =>
              rw [h6] at h
              simp only [exceptBindOk] at h
              cases h7 : pyGet arguments "outbound_date" (.str "") with
              | error e => rw [h7] at h; simp at h
              | ok outbound_date =>
                rw [h7] at h
                simp only [exceptBindOk] at h
                cases h8 : pyGet arguments "return_date" .null with
                | error e => rw [h8] at h; simp at h
                | ok return_date =>
                  rw [h8] at h
                  simp only [exceptBindOk, exceptPureEq, Except.ok.injEq] at h
                  exact Or.inl ⟨_, h.symm⟩
        · rw [if_neg h4] at h
          by_cases h5 : tool_name.eqStr "server_status" = true
          · rw [if_pos h5] at h
            simp only [exceptPureEq, Except.ok.injEq] at h
            exact Or.inl ⟨_, h.symm⟩
          · rw [if_neg h5] at h
            simp only [exceptPureEq, Except.ok.injEq] at h
            exact Or.inr ⟨_, h.symm⟩

/-- The handler `handle_call_tool` on an object envelope yields exactly one
response, which carries the substituted request id. -/
theorem handle_call_tool_shape (key : String) (fs : List (String × Json)) (o : HttpOutcome) :
    ∃ r, handle_call_tool key (.obj fs) o = .ok r
      ∧ ((∃ t, r = mkTextResult (handlerRequestId fs) t)
        ∨ (∃ n, r = mkUnknownTool (handlerRequestId fs) n)
        ∨ (∃ e, r = mkInternalError (handlerRequestId fs) e)) := by
  rw [handle_call_tool_obj]
  cases h : callToolTry key (handlerRequestId fs) (.obj fs) o with
  | ok resp =>
      refine ⟨resp, rfl, ?_⟩
      rcases callToolTry_cases key _ _ o resp h with ⟨t, ht⟩ | ⟨n, hn⟩
      · exact Or.inl ⟨t, ht⟩
      · exact Or.inr (Or.inl ⟨n, hn⟩)
  | error e => exact ⟨_, rfl, Or.inr (Or.inr ⟨e, rfl⟩)⟩

@[simp] theorem idOf_mkTextResult (rid : Json) (t : String) :
    idOf (mkTextResult rid t) = some rid := rfl

@[simp] theorem idOf_mkUnknownTool (rid n : Json) :
    idOf (mkUnknownTool rid n) = some rid := rfl

@[simp] theorem idOf_mkInternalError (rid : Json) (e : String) :
    idOf (mkInternalError rid e) = some rid := rfl

@[simp] theorem idOf_mkInitResult (rid : Json) :
    idOf (mkInitResult rid) = some rid := rfl

@[simp] theorem idOf_mkListToolsResult (rid : Json) :
    idOf (mkListToolsResult rid) = some rid := rfl

@[simp] theorem idOf_mkPingResult (rid : Json) :
    idOf (mkPingResult rid) = some rid := rfl

@[simp] theorem idOf_mkMethodNotFound (rid m : Json) :
    idOf (mkMethodNotFound rid m) = some rid := rfl

@[simp] theorem keys_mkTextResult (rid : Json) (t : String) :
    hasKey (mkTextResult rid t) "result" = true
      ∧ hasKey (mkTextResult rid t) "error" = false := ⟨rfl, rfl⟩

@[simp] theorem keys_mkUnknownTool (rid n : Json) :
    hasKey (mkUnknownTool rid n) "result" = false
      ∧ hasKey (mkUnknownTool rid n) "error" = true := ⟨rfl, rfl⟩

@[simp] theorem keys_mkInternalError (rid : Json) (e : String) :
    hasKey (mkInternalError rid e) "result" = false
      ∧ hasKey (mkInternalError rid e) "error" = true := ⟨rfl, rfl⟩

@[simp] theorem keys_mkMethodNotFound (rid m : Json) :
    hasKey (mkMethodNotFound rid m) "result" = false
      ∧ hasKey (mkMethodNotFound rid m) "error" = true := ⟨rfl, rfl⟩

@[simp] theorem keys_mkParseError (msg : String) :
    hasKey (mkParseError msg) "result" = false
      ∧ hasKey (mkParseError msg) "error" = true := ⟨rfl, rfl⟩

@[simp] theorem callTextOf_mkTextResult (rid : Json) (t : String) :
    callTextOf (mkTextResult rid t) = some t := rfl

/-! ### Claims -/

/-- C4: every input line that fails to parse as JSON makes the
transport loop emit exactly one error response, with code `-32700` and
`id` the JSON null, and then continue with the remaining lines. -/
theorem c4_parse_error_recovery (key msg : String) (rest : List InputLine) :
    run_stdio key (InputLine.malformed msg :: rest)
        = mkParseError msg :: run_stdio key rest
      ∧ errorCodeOf (mkParseError msg) = some (-32700)
      ∧ idOf (mkParseError msg) = some Json.null :=
  ⟨rfl, rfl, rfl⟩

/-- C2 (counterexample): the parsed envelope a sole method field holding ping has
no `id`, yet the server writes a response (with id `"unknown"`), so an
id-less envelope does NOT always go unanswered. -/
theorem c2_counterexample :
    (Json.obj [("method", Json.str "ping")]).objLookup "id" = none
      ∧ stepResponse (processInputLine "k"
          (.parsed (.obj [("method", .str "ping")]) (.requestException "net down")))
        = some (mkPingResult (.str "unknown"))
      ∧ processInputLine "k"
          (.parsed (.obj [("method", .str "ping")]) (.requestException "net down"))
        ≠ StepResult.noResponse := by
  refine ⟨rfl, rfl, ?_⟩
  intro h
  have h2 : processInputLine "k"
      (.parsed (.obj [("method", .str "ping")]) (.requestException "net down"))
      = .response (mkPingResult (.str "unknown")) := rfl
  rw [h2] at h
  exact StepResult.noConfusion h

/-- C2 (amended): a successfully parsed object envelope lacking an
`id` goes unanswered exactly when its `method` value is the string
`notifications/initialized`; every other method still gets a
response. -/
theorem c2_amended_notification_only (key : String) (fs : List (String × Json))
    (o : HttpOutcome) (_hid : (fs.reverse).lookup "id" = none) :
    processInputLine key (.parsed (.obj fs) o) = StepResult.noResponse
      ↔ envMethod fs = Json.str "notifications/initialized" := by
  rw [processInputLine_obj]
  cases h1 : (envMethod fs).eqStr "initialize" with
  | true =>
      rw [if_pos rfl, handle_init_obj]
      have hm := (eqStr_iff _ _).mp h1
      constructor
      · intro h; exact absurd h (by simp [wrapHandler])
      · intro h; rw [h] at hm; simp at hm
  | false =>
  rw [if_neg (by simp [h1])]
  cases h2 : (envMethod fs).eqStr "tools/list" with
  | true =>
      rw [if_pos rfl, handle_list_tools_obj]
      have hm := (eqStr_iff _ _).mp h2
      constructor
      · intro h; exact absurd h (by simp [wrapHandler])
      · intro h; rw [h] at hm; simp at hm
  | false =>
  rw [if_neg (by simp [h2])]
  cases h3 : (envMethod fs).eqStr "tools/call" with
  | true =>
      rw [if_pos rfl]
      have hm := (eqStr_iff _ _).mp h3
      obtain ⟨r, hr, -⟩ := handle_call_tool_shape key fs o
      rw [hr]
      constructor
      · intro h; exact absurd h (by simp [wrapHandler])
      · intro h; rw [h] at hm; simp at hm
  | false =>
  rw [if_neg (by simp [h3])]
  cases h4 : (envMethod fs).eqStr "ping" with
  | true =>
      rw [if_pos rfl, handle_ping_obj]
      have hm := (eqStr_iff _ _).mp h4
      constructor
      · intro h; exact absurd h (by simp [wrapHandler])
      · intro h; rw [h] at hm; simp at hm
  | false =>
  rw [if_neg (by simp [h4])]
  cases h5 : (envMethod fs).eqStr "notifications/initialized" with
  | true =>
      rw [if_pos rfl]
      simp [(eqStr_iff _ _).mp h5]
  | false =>
      rw [if_neg (by simp [h5])]
      constructor
      · intro h; exact absurd h (by simp)
      · intro h
        rw [h] at h5
        simp [Json.eqStr] at h5

/-- C2 (amended, witness): a parsed id-less
`notifications/initialized` envelope produces no response. -/
theorem c2_amended_notification_only_witness :
    (([("method", Json.str "notifications/initialized")]
        : List (String × Json)).reverse).lookup "id" = none
      ∧ processInputLine "k"
          (.parsed (.obj [("method", .str "notifications/initialized")])
            (.requestException "x"))
        = StepResult.noResponse :=
  ⟨rfl,
    (c2_amended_notification_only "k" [("method", Json.str "notifications/initialized")]
      (.requestException "x") rfl).mpr rfl⟩

/-- C5: a parsed object envelope carrying an `id` and an unrecognized
`method` gets exactly one response: the `-32601` method-not-found
error echoing that `id`. -/
theorem c5_unknown_method (key : String) (fs : List (String × Json)) (o : HttpOutcome)
    (rest : List InputLine) (v : Json)
    (hid : (fs.reverse).lookup "id" = some v)
    (h1 : (envMethod fs).eqStr "initialize" = false)
    (h2 : (envMethod fs).eqStr "tools/list" = false)
    (h3 : (envMethod fs).eqStr "tools/call" = false)
    (h4 : (envMethod fs).eqStr "ping" = false)
    (h5 : (envMethod fs).eqStr "notifications/initialized" = false) :
    run_stdio key (InputLine.parsed (.obj fs) o :: rest)
        = mkMethodNotFound v (envMethod fs) :: run_stdio key rest
      ∧ errorCodeOf (mkMethodNotFound v (envMethod fs)) = some (-32601)
      ∧ idOf (mkMethodNotFound v (envMethod fs)) = some v := by
  have hstep : processInputLine key (.parsed (.obj fs) o)
      = .response (mkMethodNotFound v (envMethod fs)) := by
    rw [processInputLine_obj, if_neg (by simp [h1]), if_neg (by simp [h2]),
      if_neg (by simp [h3]), if_neg (by simp [h4]), if_neg (by simp [h5]), hid]
    rfl
  refine ⟨?_, rfl, rfl⟩
  show (match processInputLine key (.parsed (.obj fs) o) with
    | .response r => r :: run_stdio key rest
    | .noResponse => run_stdio key rest
    | .crash => []) = _
  rw [hstep]

/-- C5 (witness): with id 9 and method bogus gets one `-32601`
response with id 9. -/
theorem c5_unknown_method_witness :
    run_stdio "k" [InputLine.parsed
        (.obj [("id", Json.num 9), ("method", Json.str "bogus")]) (.requestException "x")]
        = [mkMethodNotFound (.num 9) (.str "bogus")]
      ∧ errorCodeOf (mkMethodNotFound (.num 9) (.str "bogus")) = some (-32601)
      ∧ idOf (mkMethodNotFound (.num 9) (.str "bogus")) = some (.num 9) :=
  c5_unknown_method "k" [("id", Json.num 9), ("method", Json.str "bogus")]
    (.requestException "x") [] (.num 9) rfl rfl rfl rfl rfl rfl

/-- C7: every `tools/list` request on an object envelope with an `id`
yields a success response whose descriptor sequence has exactly the two
descriptors `search_flights` and `server_status`, in that declaration
order. -/
theorem c7_list_tools (key : String) (fs : List (String × Json)) (o : HttpOutcome) (v : Json)
    (hm : envMethod fs = Json.str "tools/list")
    (hid : (fs.reverse).lookup "id" = some v) :
    processInputLine key (.parsed (.obj fs) o)
        = .response (mkListToolsResult (handlerRequestId fs))
      ∧ hasKey (mkListToolsResult (handlerRequestId fs)) "result" = true
      ∧ hasKey (mkListToolsResult (handlerRequestId fs)) "error" = false
      ∧ toolNamesOf (mkListToolsResult (handlerRequestId fs))
          = some [some (.str "search_flights"), some (.str "server_status")]
      ∧ toolsList.length = 2
      ∧ handlerRequestId fs = (if v.isNull then Json.str "unknown" else v) := by
  refine ⟨?_, rfl, rfl, rfl, rfl, ?_⟩
  · rw [processInputLine_obj, hm]
    rw [if_neg (by simp [Json.eqStr]), if_pos (by simp [Json.eqStr]), handle_list_tools_obj]
    rfl
  · simp [handlerRequestId, hid]

/-- C7 (witness): with id 2 and method tools/list lists the two
descriptors in order. -/
theorem c7_list_tools_witness :
    processInputLine "k" (.parsed
        (.obj [("id", Json.num 2), ("method", Json.str "tools/list")]) (.requestException "x"))
        = .response (mkListToolsResult
            (handlerRequestId [("id", Json.num 2), ("method", Json.str "tools/list")]))
      ∧ hasKey (mkListToolsResult
            (handlerRequestId [("id", Json.num 2), ("method", Json.str "tools/list")]))
          "result" = true
      ∧ hasKey (mkListToolsResult
            (handlerRequestId [("id", Json.num 2), ("method", Json.str "tools/list")]))
          "error" = false
      ∧ toolNamesOf (mkListToolsResult
            (handlerRequestId [("id", Json.num 2), ("method", Json.str "tools/list")]))
          = some [some (.str "search_flights"), some (.str "server_status")]
      ∧ toolsList.length = 2
      ∧ handlerRequestId [("id", Json.num 2), ("method", Json.str "tools/list")]
          = (if (Json.num 2).isNull then Json.str "unknown" else Json.num 2) :=
  c7_list_tools "k" [("id", Json.num 2), ("method", Json.str "tools/list")]
    (.requestException "x") (.num 2) rfl rfl

/-- C9: a parsed object envelope with no `id` field and any method
other than `notifications/initialized` still gets exactly one response,
and that response carries the literal string id `"unknown"`. -/
theorem c9_missing_id_unknown (key : String) (fs : List (String × Json)) (o : HttpOutcome)
    (hid : (fs.reverse).lookup "id" = none)
    (hm : (envMethod fs).eqStr "notifications/initialized" = false) :
    (stepResponse (processInputLine key (.parsed (.obj fs) o))).bind idOf
      = some (Json.str "unknown") := by
  have hrid : handlerRequestId fs = .str "unknown" := by
    simp [handlerRequestId, hid, Json.isNull]
  rw [processInputLine_obj]
  cases h1 : (envMethod fs).eqStr "initialize" with
  | true =>
      rw [if_pos rfl, handle_init_obj]
      simp [wrapHandler, stepResponse, hrid]
  | false =>
  rw [if_neg (by simp)]
  cases h2 : (envMethod fs).eqStr "tools/list" with
  | true =>
      rw [if_pos rfl, handle_list_tools_obj]
      simp [wrapHandler, stepResponse, hrid]
  | false =>
  rw [if_neg (by simp)]
  cases h3 : (envMethod fs).eqStr "tools/call" with
  | true =>
      rw [if_pos rfl]
      obtain ⟨r, hr, hshape⟩ := handle_call_tool_shape key fs o
      rw [hr]
      rcases hshape with ⟨t, rfl⟩ | ⟨n, rfl⟩ | ⟨e, rfl⟩ <;>
        simp [wrapHandler, stepResponse, hrid]
  | false =>
  rw [if_neg (by simp)]
  cases h4 : (envMethod fs).eqStr "ping" with
  | true =>
      rw [if_pos rfl, handle_ping_obj]
      simp [wrapHandler, stepResponse, hrid]
  | false =>
  rw [if_neg (by simp), if_neg (by simp [hm]), hid]
  simp [stepResponse]

/-- C9 (witness): the id-less envelope a sole method field holding ping is
answered with id `"unknown"`. -/
theorem c9_missing_id_unknown_witness :
    (stepResponse (processInputLine "k"
        (.parsed (.obj [("method", .str "ping")]) (.requestException "x")))).bind idOf
      = some (Json.str "unknown") :=
  c9_missing_id_unknown "k" [("method", .str "ping")] (.requestException "x") rfl rfl

/-- C3 (counterexample): `tools/call` with `params` lacking `name`
(a request with id 3 and an empty params object)
is answered with the `-32603` internal error (the `KeyError` text), not
with the `-32601` unknown-tool error the claim requires. -/
theorem c3_counterexample :
    stepResponse (processInputLine "k" (.parsed
        (.obj [("jsonrpc", .str "2.0"), ("id", .num 3), ("method", .str "tools/call"),
          ("params", .obj [])]) (.requestException "x")))
        = some (mkInternalError (.num 3) "\x27name\x27")
      ∧ errorCodeOf (mkInternalError (.num 3) "\x27name\x27") = some (-32603)
      ∧ ((-32603 : Int) ≠ -32601) :=
  ⟨rfl, rfl, by decide⟩

/-- C3 (amended): `tools/call` whose `params` object lacks a `name`
entry is answered with the `-32603` internal error produced from the
escaping `KeyError`, not with `-32601`. -/
theorem c3_amended_missing_name (key : String) (fs pf : List (String × Json))
    (o : HttpOutcome)
    (hm : envMethod fs = Json.str "tools/call")
    (hp : (fs.reverse).lookup "params" = some (.obj pf))
    (hn : (pf.reverse).lookup "name" = none) :
    processInputLine key (.parsed (.obj fs) o)
        = .response (mkInternalError (handlerRequestId fs) "\x27name\x27")
      ∧ errorCodeOf (mkInternalError (handlerRequestId fs) "\x27name\x27")
          = some (-32603) := by
  have hcall : callToolTry key (handlerRequestId fs) (.obj fs) o
      = .error "\x27name\x27" := by
    unfold callToolTry
    rw [show pySubscriptKey (Json.obj fs) "params" = .ok (.obj pf) from by
      simp [pySubscriptKey, hp]]
    simp only [exceptBindOk]
    rw [show pySubscriptKey (Json.obj pf) "name" = .error "\x27name\x27" from by
      simp [pySubscriptKey, hn]]
    simp only [exceptBindErr]
  refine ⟨?_, rfl⟩
  rw [processInputLine_obj, hm, if_neg (by simp [Json.eqStr]),
    if_neg (by simp [Json.eqStr]), if_pos (by simp [Json.eqStr]),
    handle_call_tool_obj, hcall]
  rfl

/-- C3 (amended, witness): concrete instance with `id` 4 and empty
`params`. -/
theorem c3_amended_missing_name_witness :
    processInputLine "k" (.parsed
        (.obj [("id", .num 4), ("method", .str "tools/call"), ("params", .obj [])])
        (.requestException "x"))
        = .response (mkInternalError
            (handlerRequestId [("id", .num 4), ("method", .str "tools/call"),
              ("params", .obj [])]) "\x27name\x27")
      ∧ errorCodeOf (mkInternalError
            (handlerRequestId [("id", .num 4), ("method", .str "tools/call"),
              ("params", .obj [])]) "\x27name\x27")
          = some (-32603) :=
  c3_amended_missing_name "k" [("id", .num 4), ("method", .str "tools/call"),
    ("params", .obj [])] [] (.requestException "x") rfl rfl rfl

/-- The two payload shapes `processFlightData` can return: the
provider-error payload or the success payload with the
truthiness-derived trip type. -/
theorem processFlightData_ok_shape (origin destination outbound_date return_date data p : Json)
    (h : processFlightData origin destination outbound_date return_date data = .ok p) :
    (∃ msg, p = .obj [("status", .str "error"), ("message", .str msg)])
    ∨ (∃ flights : List Json, p = .obj
        [("status", .str "success"), ("origin", origin), ("destination", destination),
         ("outbound_date", outbound_date), ("return_date", return_date),
         ("trip_type", .str (if pyTruthy return_date then "round_trip" else "one_way")),
         ("flights", .arr flights)]) := by
  unfold processFlightData at h
  cases h1 : pyContainsStr data "error" with
  | error e => rw [h1] at h; simp at h
  | ok b =>
    rw [h1] at h
    simp only [exceptBindOk] at h
    cases b with
    | true =>
      rw [if_pos rfl] at h
      cases h2 : pySubscriptKey data "error" with
      | error e => rw [h2] at h; simp at h
      | ok ev =>
        rw [h2] at h
        simp only [exceptBindOk, exceptPureEq, Except.ok.injEq] at h
        exact Or.inl ⟨_, h.symm⟩
    | false =>
      rw [if_neg (by simp)] at h
      cases h3 : pyGet data "best_flights" (.arr []) with
      | error e => rw [h3] at h; simp at h
      | ok bf =>
        rw [h3] at h
        simp only [exceptBindOk] at h
        cases h4 : extractFlights bf with
        | error e => rw [h4] at h; simp at h
        | ok flights =>
          rw [h4] at h
          simp only [exceptBindOk, exceptPureEq, Except.ok.injEq] at h
          exact Or.inr ⟨flights, h.symm⟩

/-- When the collaborator payload reports success, its `trip_type` is
decided by the truthiness of `return_date`. -/
theorem search_flights_trip_type (key : String)
    (origin destination outbound_date return_date : Json) (o : HttpOutcome)
    (h : statusOf (search_flights key origin destination outbound_date return_date o)
      = some "success") :
    tripTypeOf (search_flights key origin destination outbound_date return_date o)
      = some (if pyTruthy return_date then "round_trip" else "one_way") := by
  cases o with
  | requestException e => simp [search_flights, statusOf, Json.objLookup, List.lookup] at h
  | otherException e => simp [search_flights, statusOf, Json.objLookup, List.lookup] at h
  | ok data =>
    simp only [search_flights] at h ⊢
    cases hp : processFlightData origin destination outbound_date return_date data with
    | error e => rw [hp] at h; simp [statusOf, Json.objLookup, List.lookup] at h
    | ok p =>
      rw [hp] at h
      rcases processFlightData_ok_shape _ _ _ _ _ _ hp with ⟨msg, rfl⟩ | ⟨fl, rfl⟩
      · simp [statusOf, Json.objLookup, List.lookup] at h
      · rfl

/-- When the collaborator lookup fails, the payload `search_flights`
returns reports `status: "error"` together with a message. -/
theorem search_flights_fail_payload (key : String)
    (origin destination outbound_date return_date : Json) (o : HttpOutcome)
    (hf : lookupFails o) :
    statusOf (search_flights key origin destination outbound_date return_date o)
        = some "error"
      ∧ ∃ msg, (search_flights key origin destination outbound_date return_date o).objLookup
          "message" = some (.str msg) := by
  cases o with
  | requestException e => exact ⟨rfl, ⟨_, rfl⟩⟩
  | otherException e => exact ⟨rfl, ⟨_, rfl⟩⟩
  | ok data =>
    have hc : pyContainsStr data "error" = .ok true := hf
    cases h2 : pySubscriptKey data "error" with
    | ok ev =>
      have hpd : processFlightData origin destination outbound_date return_date data
          = .ok (.obj [("status", .str "error"),
            ("message", .str ("SerpAPI error: " ++ pyStr ev))]) := by
        unfold processFlightData
        rw [hc]
        simp only [exceptBindOk]
        rw [if_pos trivial, h2]
        simp
      have hs : search_flights key origin destination outbound_date return_date (.ok data)
          = .obj [("status", .str "error"),
            ("message", .str ("SerpAPI error: " ++ pyStr ev))] := by
        simp only [search_flights]
        rw [hpd]
      rw [hs]
      exact ⟨rfl, ⟨_, rfl⟩⟩
    | error e =>
      have hpd : processFlightData origin destination outbound_date return_date data
          = .error e := by
        unfold processFlightData
        rw [hc]
        simp only [exceptBindOk]
        rw [if_pos trivial, h2]
        simp
      have hs : search_flights key origin destination outbound_date return_date (.ok data)
          = .obj [("status", .str "error"),
            ("message", .str ("Error processing flight data: " ++ e))] := by
        simp only [search_flights]
        rw [hpd]
      rw [hs]
      exact ⟨rfl, ⟨_, rfl⟩⟩

/-- A `tools/call` request naming `search_flights` whose arguments are
an object (or absent) is answered by wrapping the collaborator payload
as the text of the single content block of a success result. -/
theorem toolCall_search_response (key : String) (fs pf af : List (String × Json))
    (o : HttpOutcome)
    (hm : envMethod fs = Json.str "tools/call")
    (hp : (fs.reverse).lookup "params" = some (.obj pf))
    (hn : (pf.reverse).lookup "name" = some (.str "search_flights"))
    (ha : ((pf.reverse).lookup "arguments").getD (.obj []) = .obj af) :
    processInputLine key (.parsed (.obj fs) o)
      = .response (mkTextResult (handlerRequestId fs)
          (jsonDumps (search_flights key (argOf af "origin" (.str ""))
            (argOf af "destination" (.str "")) (argOf af "outbound_date" (.str ""))
            (argOf af "return_date" .null) o))) := by
  have hcall : callToolTry key (handlerRequestId fs) (.obj fs) o
      = .ok (mkTextResult (handlerRequestId fs)
          (jsonDumps (search_flights key (argOf af "origin" (.str ""))
            (argOf af "destination" (.str "")) (argOf af "outbound_date" (.str ""))
            (argOf af "return_date" .null) o))) := by
    unfold callToolTry
    rw [show pySubscriptKey (Json.obj fs) "params" = .ok (.obj pf) from by
      simp [pySubscriptKey, hp]]
    simp only [exceptBindOk]
    rw [show pySubscriptKey (Json.obj pf) "name" = .ok (.str "search_flights") from by
      simp [pySubscriptKey, hn]]
    simp only [exceptBindOk]
    rw [show pyGet (Json.obj pf) "arguments" (.obj []) = .ok (.obj af) from by
      simp [pyGet, ha]]
    simp only [exceptBindOk]
    rw [if_pos (by simp [Json.eqStr])]
    rfl
  rw [processInputLine_obj, hm, if_neg (by simp [Json.eqStr]),
    if_neg (by simp [Json.eqStr]), if_pos (by simp [Json.eqStr]),
    handle_call_tool_obj, hcall]
  rfl

/-- C10: a `search_flights` call whose `return_date` is the empty
string is treated as one-way: the collaborator query carries no
`return_date` and has `type` `"2"`, and a success payload reports
`trip_type: "one_way"` — classification follows truthiness, not
presence. -/
theorem c10_empty_return_date (key : String)
    (origin destination outbound_date : Json) (o : HttpOutcome) :
    (searchQueryParams key origin destination outbound_date (.str "")).lookup "return_date"
        = none
      ∧ (searchQueryParams key origin destination outbound_date (.str "")).lookup "type"
          = some (.str "2")
      ∧ (statusOf (search_flights key origin destination outbound_date (.str "") o)
            = some "success"
          → tripTypeOf (search_flights key origin destination outbound_date (.str "") o)
              = some "one_way") := by
  refine ⟨rfl, rfl, fun h => ?_⟩
  have := search_flights_trip_type key origin destination outbound_date (.str "") o h
  simpa [pyTruthy] using this

/-- C10 (witness): a successful lookup with `return_date` `""` reports
one-way. -/
theorem c10_empty_return_date_witness :
    statusOf (search_flights "k" (.str "JFK") (.str "LAX") (.str "2026-03-01") (.str "")
        (.ok (.obj [("best_flights", .arr [])]))) = some "success"
      ∧ tripTypeOf (search_flights "k" (.str "JFK") (.str "LAX") (.str "2026-03-01") (.str "")
        (.ok (.obj [("best_flights", .arr [])]))) = some "one_way" :=
  ⟨rfl, (c10_empty_return_date "k" (.str "JFK") (.str "LAX") (.str "2026-03-01")
    (.ok (.obj [("best_flights", .arr [])]))).2.2 rfl⟩

/-- C6 (counterexample): a `tools/call` of `search_flights` that DOES
supply a `return_date` (the empty string) and whose lookup succeeds
still reports `trip_type: "one_way"`, so supplying `return_date` does
not always give `"round_trip"`: the test is truthiness, not
presence. -/
theorem c6_counterexample :
    (Json.obj [("origin", Json.str "JFK"), ("destination", Json.str "LAX"),
        ("outbound_date", Json.str "2026-03-01"), ("return_date", Json.str "")]).objLookup
        "return_date" = some (.str "")
      ∧ stepResponse (processInputLine "k" (.parsed
          (.obj [("jsonrpc", .str "2.0"), ("id", .num 1), ("method", .str "tools/call"),
            ("params", .obj [("name", .str "search_flights"),
              ("arguments", .obj [("origin", .str "JFK"), ("destination", .str "LAX"),
                ("outbound_date", .str "2026-03-01"), ("return_date", .str "")])])])
          (.ok (.obj [("best_flights", .arr [])]))))
        = some (mkTextResult (.num 1)
            (jsonDumps (search_flights "k" (.str "JFK") (.str "LAX") (.str "2026-03-01")
              (.str "") (.ok (.obj [("best_flights", .arr [])])))))
      ∧ statusOf (search_flights "k" (.str "JFK") (.str "LAX") (.str "2026-03-01")
          (.str "") (.ok (.obj [("best_flights", .arr [])]))) = some "success"
      ∧ tripTypeOf (search_flights "k" (.str "JFK") (.str "LAX") (.str "2026-03-01")
          (.str "") (.ok (.obj [("best_flights", .arr [])]))) = some "one_way"
      ∧ (some ("one_way" : String) ≠ some "round_trip") :=
  ⟨rfl, rfl, rfl, rfl, by decide⟩

/-- C6 (amended): for a `tools/call` of `search_flights`, the payload
text is the collaborator result for the extracted arguments; the
collaborator query carries `return_date` (and round-trip `type "1"`)
exactly when the extracted `return_date` is TRUTHY, and a success
payload reports `trip_type` `"round_trip"` exactly under the same
truthiness test (absent or falsy, such as the empty string, gives
`"one_way"`). -/
theorem c6_amended_trip_type_truthiness (key : String) (fs pf af : List (String × Json))
    (o : HttpOutcome)
    (hm : envMethod fs = Json.str "tools/call")
    (hp : (fs.reverse).lookup "params" = some (.obj pf))
    (hn : (pf.reverse).lookup "name" = some (.str "search_flights"))
    (ha : ((pf.reverse).lookup "arguments").getD (.obj []) = .obj af) :
    processInputLine key (.parsed (.obj fs) o)
        = .response (mkTextResult (handlerRequestId fs)
            (jsonDumps (search_flights key (argOf af "origin" (.str ""))
              (argOf af "destination" (.str "")) (argOf af "outbound_date" (.str ""))
              (argOf af "return_date" .null) o)))
      ∧ ((searchQueryParams key (argOf af "origin" (.str "")) (argOf af "destination" (.str ""))
            (argOf af "outbound_date" (.str "")) (argOf af "return_date" .null)).lookup
            "return_date"
          = (if pyTruthy (argOf af "return_date" .null)
              then some (argOf af "return_date" .null) else none))
      ∧ ((searchQueryParams key (argOf af "origin" (.str "")) (argOf af "destination" (.str ""))
            (argOf af "outbound_date" (.str "")) (argOf af "return_date" .null)).lookup "type"
          = some (.str (if pyTruthy (argOf af "return_date" .null) then "1" else "2")))
      ∧ (statusOf (search_flights key (argOf af "origin" (.str ""))
            (argOf af "destination" (.str "")) (argOf af "outbound_date" (.str ""))
            (argOf af "return_date" .null) o) = some "success"
          → tripTypeOf (search_flights key (argOf af "origin" (.str ""))
              (argOf af "destination" (.str "")) (argOf af "outbound_date" (.str ""))
              (argOf af "return_date" .null) o)
            = some (if pyTruthy (argOf af "return_date" .null)
                then "round_trip" else "one_way")) := by
  refine ⟨toolCall_search_response key fs pf af o hm hp hn ha, ?_, ?_,
    search_flights_trip_type key _ _ _ _ o⟩
  · cases hb : pyTruthy (argOf af "return_date" .null) <;>
      simp [searchQueryParams, hb, List.lookup]
  · cases hb : pyTruthy (argOf af "return_date" .null) <;>
      simp [searchQueryParams, hb, List.lookup]

/-- C6 (amended, witness): a truthy `return_date` gives the round-trip
query form and, on success, `trip_type: "round_trip"`. -/
theorem c6_amended_trip_type_truthiness_witness :
    processInputLine "k" (.parsed
        (.obj [("id", .num 5), ("method", .str "tools/call"),
          ("params", .obj [("name", .str "search_flights"),
            ("arguments", .obj [("origin", .str "JFK"), ("destination", .str "LAX"),
              ("outbound_date", .str "2026-03-01"), ("return_date", .str "2026-03-08")])])])
        (.ok (.obj [("best_flights", .arr [])])))
        = .response (mkTextResult
            (handlerRequestId [("id", .num 5), ("method", .str "tools/call"),
              ("params", .obj [("name", .str "search_flights"),
                ("arguments", .obj [("origin", .str "JFK"), ("destination", .str "LAX"),
                  ("outbound_date", .str "2026-03-01"),
                  ("return_date", .str "2026-03-08")])])])
            (jsonDumps (search_flights "k"
              (argOf [("origin", .str "JFK"), ("destination", .str "LAX"),
                ("outbound_date", .str "2026-03-01"), ("return_date", .str "2026-03-08")]
                "origin" (.str ""))
              (argOf [("origin", .str "JFK"), ("destination", .str "LAX"),
                ("outbound_date", .str "2026-03-01"), ("return_date", .str "2026-03-08")]
                "destination" (.str ""))
              (argOf [("origin", .str "JFK"), ("destination", .str "LAX"),
                ("outbound_date", .str "2026-03-01"), ("return_date", .str "2026-03-08")]
                "outbound_date" (.str ""))
              (argOf [("origin", .str "JFK"), ("destination", .str "LAX"),
                ("outbound_date", .str "2026-03-01"), ("return_date", .str "2026-03-08")]
                "return_date" .null)
              (.ok (.obj [("best_flights", .arr [])])))))
      ∧ ((searchQueryParams "k"
            (argOf [("origin", .str "JFK"), ("destination", .str "LAX"),
              ("outbound_date", .str "2026-03-01"), ("return_date", .str "2026-03-08")]
              "origin" (.str ""))
            (argOf [("origin", .str "JFK"), ("destination", .str "LAX"),
              ("outbound_date", .str "2026-03-01"), ("return_date", .str "2026-03-08")]
              "destination" (.str ""))
            (argOf [("origin", .str "JFK"), ("destination", .str "LAX"),
              ("outbound_date", .str "2026-03-01"), ("return_date", .str "2026-03-08")]
              "outbound_date" (.str ""))
            (argOf [("origin", .str "JFK"), ("destination", .str "LAX"),
              ("outbound_date", .str "2026-03-01"), ("return_date", .str "2026-03-08")]
              "return_date" .null)).lookup "return_date"
          = (if pyTruthy (argOf [("origin", .str "JFK"), ("destination", .str "LAX"),
                ("outbound_date", .str "2026-03-01"), ("return_date", .str "2026-03-08")]
                "return_date" .null)
              then some (argOf [("origin", .str "JFK"), ("destination", .str "LAX"),
                ("outbound_date", .str "2026-03-01"), ("return_date", .str "2026-03-08")]
                "return_date" .null) else none))
      ∧ ((searchQueryParams "k"
            (argOf [("origin", .str "JFK"), ("destination", .str "LAX"),
              ("outbound_date", .str "2026-03-01"), ("return_date", .str "2026-03-08")]
              "origin" (.str ""))
            (argOf [("origin", .str "JFK"), ("destination", .str "LAX"),
              ("outbound_date", .str "2026-03-01"), ("return_date", .str "2026-03-08")]
              "destination" (.str ""))
            (argOf [("origin", .str "JFK"), ("destination", .str "LAX"),
              ("outbound_date", .str "2026-03-01"), ("return_date", .str "2026-03-08")]
              "outbound_date" (.str ""))
            (argOf [("origin", .str "JFK"), ("destination", .str "LAX"),
              ("outbound_date", .str "2026-03-01"), ("return_date", .str "2026-03-08")]
              "return_date" .null)).lookup "type"
          = some (.str (if pyTruthy (argOf [("origin", .str "JFK"),
                ("destination", .str "LAX"), ("outbound_date", .str "2026-03-01"),
                ("return_date", .str "2026-03-08")] "return_date" .null)
              then "1" else "2")))
      ∧ (statusOf (search_flights "k"
            (argOf [("origin", .str "JFK"), ("destination", .str "LAX"),
              ("outbound_date", .str "2026-03-01"), ("return_date", .str "2026-03-08")]
              "origin" (.str ""))
            (argOf [("origin", .str "JFK"), ("destination", .str "LAX"),
              ("outbound_date", .str "2026-03-01"), ("return_date", .str "2026-03-08")]
              "destination" (.str ""))
            (argOf [("origin", .str "JFK"), ("destination", .str "LAX"),
              ("outbound_date", .str "2026-03-01"), ("return_date", .str "2026-03-08")]
              "outbound_date" (.str ""))
            (argOf [("origin", .str "JFK"), ("destination", .str "LAX"),
              ("outbound_date", .str "2026-03-01"), ("return_date", .str "2026-03-08")]
              "return_date" .null)
            (.ok (.obj [("best_flights", .arr [])]))) = some "success"
          → tripTypeOf (search_flights "k"
              (argOf [("origin", .str "JFK"), ("destination", .str "LAX"),
                ("outbound_date", .str "2026-03-01"), ("return_date", .str "2026-03-08")]
                "origin" (.str ""))
              (argOf [("origin", .str "JFK"), ("destination", .str "LAX"),
                ("outbound_date", .str "2026-03-01"), ("return_date", .str "2026-03-08")]
                "destination" (.str ""))
              (argOf [("origin", .str "JFK"), ("destination", .str "LAX"),
                ("outbound_date", .str "2026-03-01"), ("return_date", .str "2026-03-08")]
                "outbound_date" (.str ""))
              (argOf [("origin", .str "JFK"), ("destination", .str "LAX"),
                ("outbound_date", .str "2026-03-01"), ("return_date", .str "2026-03-08")]
                "return_date" .null)
              (.ok (.obj [("best_flights", .arr [])])))
            = some (if pyTruthy (argOf [("origin", .str "JFK"),
                  ("destination", .str "LAX"), ("outbound_date", .str "2026-03-01"),
                  ("return_date", .str "2026-03-08")] "return_date" .null)
                then "round_trip" else "one_way")) :=
  c6_amended_trip_type_truthiness "k"
    [("id", .num 5), ("method", .str "tools/call"),
      ("params", .obj [("name", .str "search_flights"),
        ("arguments", .obj [("origin", .str "JFK"), ("destination", .str "LAX"),
          ("outbound_date", .str "2026-03-01"), ("return_date", .str "2026-03-08")])])]
    [("name", .str "search_flights"),
      ("arguments", .obj [("origin", .str "JFK"), ("destination", .str "LAX"),
        ("outbound_date", .str "2026-03-01"), ("return_date", .str "2026-03-08")])]
    [("origin", .str "JFK"), ("destination", .str "LAX"),
      ("outbound_date", .str "2026-03-01"), ("return_date", .str "2026-03-08")]
    (.ok (.obj [("best_flights", .arr [])])) rfl rfl rfl rfl

/-- C1: a `tools/call` of `search_flights` whose collaborator lookup
fails (network error, provider rejection, or body-processing error) is
still answered through the JSON-RPC `result` field: the single text
content block holds the collaborator payload with `status: "error"`
and a message, and no JSON-RPC `error` field is present. -/
theorem c1_lookup_failure_stays_in_result (key : String) (fs pf af : List (String × Json))
    (o : HttpOutcome)
    (hm : envMethod fs = Json.str "tools/call")
    (hp : (fs.reverse).lookup "params" = some (.obj pf))
    (hn : (pf.reverse).lookup "name" = some (.str "search_flights"))
    (ha : ((pf.reverse).lookup "arguments").getD (.obj []) = .obj af)
    (hf : lookupFails o) :
    processInputLine key (.parsed (.obj fs) o)
        = .response (mkTextResult (handlerRequestId fs)
            (jsonDumps (search_flights key (argOf af "origin" (.str ""))
              (argOf af "destination" (.str "")) (argOf af "outbound_date" (.str ""))
              (argOf af "return_date" .null) o)))
      ∧ hasKey (mkTextResult (handlerRequestId fs)
            (jsonDumps (search_flights key (argOf af "origin" (.str ""))
              (argOf af "destination" (.str "")) (argOf af "outbound_date" (.str ""))
              (argOf af "return_date" .null) o))) "result" = true
      ∧ hasKey (mkTextResult (handlerRequestId fs)
            (jsonDumps (search_flights key (argOf af "origin" (.str ""))
              (argOf af "destination" (.str "")) (argOf af "outbound_date" (.str ""))
              (argOf af "return_date" .null) o))) "error" = false
      ∧ callTextOf (mkTextResult (handlerRequestId fs)
            (jsonDumps (search_flights key (argOf af "origin" (.str ""))
              (argOf af "destination" (.str "")) (argOf af "outbound_date" (.str ""))
              (argOf af "return_date" .null) o)))
          = some (jsonDumps (search_flights key (argOf af "origin" (.str ""))
              (argOf af "destination" (.str "")) (argOf af "outbound_date" (.str ""))
              (argOf af "return_date" .null) o))
      ∧ statusOf (search_flights key (argOf af "origin" (.str ""))
            (argOf af "destination" (.str "")) (argOf af "outbound_date" (.str ""))
            (argOf af "return_date" .null) o) = some "error"
      ∧ ∃ msg, (search_flights key (argOf af "origin" (.str ""))
            (argOf af "destination" (.str "")) (argOf af "outbound_date" (.str ""))
            (argOf af "return_date" .null) o).objLookup "message" = some (.str msg) := by
  obtain ⟨hstatus, hmsg⟩ := search_flights_fail_payload key (argOf af "origin" (.str ""))
    (argOf af "destination" (.str "")) (argOf af "outbound_date" (.str ""))
    (argOf af "return_date" .null) o hf
  exact ⟨toolCall_search_response key fs pf af o hm hp hn ha, rfl, rfl, rfl, hstatus, hmsg⟩

/-- C1 (witness): a network failure on a `search_flights` call is
reported inside `result` with `status: "error"`. -/
theorem c1_lookup_failure_stays_in_result_witness :
    processInputLine "k" (.parsed
        (.obj [("id", .num 7), ("method", .str "tools/call"),
          ("params", .obj [("name", .str "search_flights")])])
        (.requestException "Connection refused"))
        = .response (mkTextResult
            (handlerRequestId [("id", .num 7), ("method", .str "tools/call"),
              ("params", .obj [("name", .str "search_flights")])])
            (jsonDumps (search_flights "k" (argOf [] "origin" (.str ""))
              (argOf [] "destination" (.str "")) (argOf [] "outbound_date" (.str ""))
              (argOf [] "return_date" .null) (.requestException "Connection refused"))))
      ∧ hasKey (mkTextResult
            (handlerRequestId [("id", .num 7), ("method", .str "tools/call"),
              ("params", .obj [("name", .str "search_flights")])])
            (jsonDumps (search_flights "k" (argOf [] "origin" (.str ""))
              (argOf [] "destination" (.str "")) (argOf [] "outbound_date" (.str ""))
              (argOf [] "return_date" .null) (.requestException "Connection refused"))))
          "result" = true
      ∧ hasKey (mkTextResult
            (handlerRequestId [("id", .num 7), ("method", .str "tools/call"),
              ("params", .obj [("name", .str "search_flights")])])
            (jsonDumps (search_flights "k" (argOf [] "origin" (.str ""))
              (argOf [] "destination" (.str "")) (argOf [] "outbound_date" (.str ""))
              (argOf [] "return_date" .null) (.requestException "Connection refused"))))
          "error" = false
      ∧ callTextOf (mkTextResult
            (handlerRequestId [("id", .num 7), ("method", .str "tools/call"),
              ("params", .obj [("name", .str "search_flights")])])
            (jsonDumps (search_flights "k" (argOf [] "origin" (.str ""))
              (argOf [] "destination" (.str "")) (argOf [] "outbound_date" (.str ""))
              (argOf [] "return_date" .null) (.requestException "Connection refused"))))
          = some (jsonDumps (search_flights "k" (argOf [] "origin" (.str ""))
              (argOf [] "destination" (.str "")) (argOf [] "outbound_date" (.str ""))
              (argOf [] "return_date" .null) (.requestException "Connection refused")))
      ∧ statusOf (search_flights "k" (argOf [] "origin" (.str ""))
            (argOf [] "destination" (.str "")) (argOf [] "outbound_date" (.str ""))
            (argOf [] "return_date" .null) (.requestException "Connection refused"))
          = some "error"
      ∧ ∃ msg, (search_flights "k" (argOf [] "origin" (.str ""))
            (argOf [] "destination" (.str "")) (argOf [] "outbound_date" (.str ""))
            (argOf [] "return_date" .null)
            (.requestException "Connection refused")).objLookup "message"
          = some (.str msg) :=
  c1_lookup_failure_stays_in_result "k"
    [("id", .num 7), ("method", .str "tools/call"),
      ("params", .obj [("name", .str "search_flights")])]
    [("name", .str "search_flights")] [] (.requestException "Connection refused")
    rfl rfl rfl rfl trivial

/-- C8: every response the server emits carries exactly one of the
`result` and `error` fields — across all handlers and all loop-level
error paths. -/
theorem c8_result_error_exclusive (key : String) (l : InputLine) (r : Json)
    (h : processInputLine key l = .response r) :
    (hasKey r "result" = true ∧ hasKey r "error" = false)
    ∨ (hasKey r "result" = false ∧ hasKey r "error" = true) := by
  cases l with
  | blank => simp [processInputLine] at h
  | malformed msg =>
      simp only [processInputLine, StepResult.response.injEq] at h
      subst h
      exact Or.inr (keys_mkParseError msg)
  | parsed req o =>
      cases req with
      | null => simp [processInputLine, pyGet, loopExceptHandler] at h
      | bool b => simp [processInputLine, pyGet, loopExceptHandler] at h
      | num n => simp [processInputLine, pyGet, loopExceptHandler] at h
      | str s => simp [processInputLine, pyGet, loopExceptHandler] at h
      | arr xs => simp [processInputLine, pyGet, loopExceptHandler] at h
      | obj fs =>
          rw [processInputLine_obj] at h
          cases h1 : (envMethod fs).eqStr "initialize" with
          | true =>
              rw [if_pos h1, handle_init_obj] at h
              simp only [wrapHandler, StepResult.response.injEq] at h
              subst h
              exact Or.inl ⟨rfl, rfl⟩
          | false =>
          rw [if_neg (by simp [h1])] at h
          cases h2 : (envMethod fs).eqStr "tools/list" with
          | true =>
              rw [if_pos h2, handle_list_tools_obj] at h
              simp only [wrapHandler, StepResult.response.injEq] at h
              subst h
              exact Or.inl ⟨rfl, rfl⟩
          | false =>
          rw [if_neg (by simp [h2])] at h
          cases h3 : (envMethod fs).eqStr "tools/call" with
          | true =>
              rw [if_pos h3, handle_call_tool_obj] at h
              cases hc : callToolTry key (handlerRequestId fs) (.obj fs) o with
              | ok resp =>
                  rw [hc] at h
                  simp only [wrapHandler, StepResult.response.injEq] at h
                  subst h
                  rcases callToolTry_cases _ _ _ _ _ hc with ⟨t, rfl⟩ | ⟨n, rfl⟩
                  · exact Or.inl (keys_mkTextResult _ _)
                  · exact Or.inr (keys_mkUnknownTool _ _)
              | error e =>
                  rw [hc] at h
                  simp only [wrapHandler, StepResult.response.injEq] at h
                  subst h
                  exact Or.inr (keys_mkInternalError _ _)
          | false =>
          rw [if_neg (by simp [h3])] at h
          cases h4 : (envMethod fs).eqStr "ping" with
          | true =>
              rw [if_pos h4, handle_ping_obj] at h
              simp only [wrapHandler, StepResult.response.injEq] at h
              subst h
              exact Or.inl ⟨rfl, rfl⟩
          | false =>
          rw [if_neg (by simp [h4])] at h
          cases h5 : (envMethod fs).eqStr "notifications/initialized" with
          | true => rw [if_pos h5] at h; simp at h
          | false =>
              rw [if_neg (by simp [h5])] at h
              simp only [StepResult.response.injEq] at h
              subst h
              exact Or.inr (keys_mkMethodNotFound _ _)

/-- C8 (witness): the parse-error response carries `error` and not
`result`. -/
theorem c8_result_error_exclusive_witness :
    (hasKey (mkParseError "oops") "result" = true
        ∧ hasKey (mkParseError "oops") "error" = false)
      ∨ (hasKey (mkParseError "oops") "result" = false
        ∧ hasKey (mkParseError "oops") "error" = true) :=
  c8_result_error_exclusive "k" (.malformed "oops") (mkParseError "oops") rfl

end FlightSearch
